import Mathlib

/-!
Verification development for the mimir-writer-k8s-operator repository.

The Python sources are shallowly embedded:
  * `src/mimir_writer/config.py`  — pure builders of the Mimir configuration
    document, embedded as functions producing `Yaml` values;
  * `src/mimir_writer/alertmanager.py` — the HTTP rule client; the network is
    embedded as an oracle mapping the effective timeout to an `HttpOutcome`
    (success body / HTTPError / URLError / TimeoutError), and the external
    yaml/json parsers as `String → Option Yaml` parameters (`Option.none`
    models a parser exception);
  * `src/charm.py` — the charm, embedded as explicit state passing over
    `CharmState`; Pebble container calls append to an operation trace, and
    a call on a non-connectable container raises `PyErr.connectionError`
    (modelled with `Except`).
-/

/-- A YAML/JSON-like structured value, as produced by `yaml.safe_load`.
Mappings keep insertion order, mirroring Python dictionaries. -/
inductive Yaml where
  | null
  | bool (b : Bool)
  | str (s : String)
  | nat (n : Nat)
  | arr (xs : List Yaml)
  | map (kvs : List (String × Yaml))

/-- Python truthiness of a structured value: `None`, `False`, `""`, `0`,
`[]` and `\x7b\x7d` are falsy, everything else truthy. -/
def yamlTruthy : Yaml → Bool
  | Yaml.null => false
  | Yaml.bool b => b
  | Yaml.str s => !(s == "")
  | Yaml.nat n => !(n == 0)
  | Yaml.arr xs => !xs.isEmpty
  | Yaml.map kvs => !kvs.isEmpty

/-- Dictionary lookup in an insertion-ordered mapping (`d[k]` / `d.get(k)`). -/
def lookupKey (k : String) : List (String × Yaml) → Option Yaml
  | [] => Option.none
  | kv :: rest => if kv.1 = k then Option.some kv.2 else lookupKey k rest

/-- `True` when the mapping has the key (`k in d`). -/
def hasKey (k : String) (kvs : List (String × Yaml)) : Bool :=
  kvs.any (fun kv => kv.1 == k)

/-! ## `src/mimir_writer/config.py` -/

def MIMIR_PORT : Nat := 9009

def MIMIR_PUSH_PATH : String := "/api/v1/push"

def MIMIR_CONFIG_FILE : String := "/etc/mimir/config.yaml"

/-- `MIMIR_DIRS`, as an insertion-ordered dictionary. -/
def MIMIR_DIRS : List (String × String) :=
  [("bucket_store", "/tmp/mimir/tsdb-sync"),
   ("data", "/tmp/mimir/data/tsdb"),
   ("tsdb", "/tmp/mimir/tsdb"),
   ("compactor", "/tmp/mimir/compactor"),
   ("rules", "/tmp/mimir/rules"),
   ("data-alertmanager", "/tmp/mimir/data-alertmanager"),
   ("tenant-rules", "/tmp/mimir/rules/anonymous")]

/-- `MIMIR_DIRS[k]` (the keys used by the source are always present). -/
def mimirDir (k : String) : String :=
  match MIMIR_DIRS.find? (fun kv => kv.1 == k) with
  | Option.some kv => kv.2
  | Option.none => ""

/-- `block_storage_config(s3_config, retention_period)`: starts from the
`bucket_store`/`tsdb` base dictionary, then adds either the `s3` or the
`filesystem` backend keys depending on the truthiness of `s3_config`. -/
def block_storage_config (s3_config : Yaml) (retention_period : String) :
    List (String × Yaml) :=
  let cfg := [("bucket_store", Yaml.map [("sync_dir", Yaml.str (mimirDir "bucket_store"))]),
              ("tsdb", Yaml.map [("dir", Yaml.str (mimirDir "tsdb")),
                                 ("retention_period", Yaml.str retention_period)])]
  if yamlTruthy s3_config then
    cfg ++ [("backend", Yaml.str "s3"), ("s3", s3_config)]
  else
    cfg ++ [("backend", Yaml.str "filesystem"),
            ("filesystem", Yaml.map [("dir", Yaml.str (mimirDir "data"))])]

/-- `compactor_config()` -/
def compactor_config : List (String × Yaml) :=
  [("data_dir", Yaml.str (mimirDir "compactor")),
   ("sharding_ring", Yaml.map [("kvstore", Yaml.map [("store", Yaml.str "memberlist")])])]

/-- `distributor_config()` -/
def distributor_config : List (String × Yaml) :=
  [("ring", Yaml.map [("instance_addr", Yaml.str "127.0.0.1"),
                      ("kvstore", Yaml.map [("store", Yaml.str "memberlist")])])]

/-- `ingester_config()` -/
def ingester_config : List (String × Yaml) :=
  [("ring", Yaml.map [("instance_addr", Yaml.str "127.0.0.1"),
                      ("kvstore", Yaml.map [("store", Yaml.str "memberlist")]),
                      ("replication_factor", Yaml.nat 1)])]

/-- `ruler_config()` -/
def ruler_config : List (String × Yaml) :=
  [("alertmanager_url", Yaml.str ("http://localhost:" ++ toString MIMIR_PORT ++ "/alertmanager"))]

/-- `ruler_storage_config()`: unconditionally the filesystem backend. -/
def ruler_storage_config : List (String × Yaml) :=
  [("backend", Yaml.str "filesystem"),
   ("filesystem", Yaml.map [("dir", Yaml.str (mimirDir "rules"))])]

/-- `server_config()` -/
def server_config : List (String × Yaml) :=
  [("http_listen_port", Yaml.nat MIMIR_PORT), ("log_level", Yaml.str "error")]

/-- `store_gateway_config()` -/
def store_gateway_config : List (String × Yaml) :=
  [("sharding_ring", Yaml.map [("replication_factor", Yaml.nat 1)])]

/-- `alertmanager_storage_config()`: unconditionally the filesystem backend. -/
def alertmanager_storage_config : List (String × Yaml) :=
  [("backend", Yaml.str "filesystem"),
   ("filesystem", Yaml.map [("dir", Yaml.str (mimirDir "data-alertmanager"))])]

/-- `memberlist_config(nodename, peers)`: node name plus the peer hostnames
(`list(peers.values())`). -/
def memberlist_config (nodename : String) (prs : List (String × String)) : Yaml :=
  Yaml.map [("node_name", Yaml.str nodename),
            ("join_members", Yaml.arr (prs.map (fun p => Yaml.str p.2)))]

example : lookupKey "backend" (block_storage_config (Yaml.map []) "24h")
    = Option.some (Yaml.str "filesystem") := rfl

example : lookupKey "backend" (block_storage_config (Yaml.map [("e", Yaml.str "x")]) "24h")
    = Option.some (Yaml.str "s3") := rfl

example : (block_storage_config Yaml.null "24h").length = 4 := rfl

/-! ## `src/mimir_writer/alertmanager.py`

The network is embedded as an oracle `Nat → HttpOutcome` giving, for the
effective timeout passed to `urlopen`, the outcome of that request.  The
yaml/json body parsers (`yaml.safe_load` / `json.loads`) are passed as
`String → Option Yaml` parameters, `Option.none` modelling a parser
exception. -/

/-- Errors a charm method can raise: a Pebble call on a non-connectable
container (`ops.pebble.ConnectionError`) or a body-parser exception
(`yaml.YAMLError` / `json.JSONDecodeError`). -/
inductive PyErr where
  | connectionError
  | yamlError
  | jsonError
deriving DecidableEq

/-- Outcome of one `urlopen` call: a 2xx response with a body, an
`HTTPError` (non-2xx status), a `URLError` (unreachable endpoint), or a
`TimeoutError`. -/
inductive HttpOutcome where
  | success (status : Nat) (body : String)
  | httpError (status : Nat)
  | urlError
  | timeoutError

/-- Result of `_post` / `_delete`: the initial sentinel `""`, or
`response.status` on success. -/
inductive PostResult where
  | sentinel
  | status (n : Nat)
deriving DecidableEq

/-- Python truthiness of a `_post` / `_delete` result: the `""` sentinel is
falsy, an integer status is truthy unless zero. -/
def postTruthy : PostResult → Bool
  | PostResult.sentinel => false
  | PostResult.status n => !(n == 0)

/-- `timeout = timeout if timeout else self._timeout`: a falsy per-call
timeout (`None` or `0`) is replaced by the instance default. -/
def amResolvedTimeout (am_timeout : Nat) (tout : Option Nat) : Nat :=
  match tout with
  | Option.none => am_timeout
  | Option.some n => if n == 0 then am_timeout else n

/-- `AlertManager._get`: returns the decoded body on success and the `""`
sentinel on `HTTPError`, `URLError` or `TimeoutError`; never raises. -/
def amGet (tout : Option Nat) (am_timeout : Nat) (outcome : Nat → HttpOutcome) : String :=
  match outcome (amResolvedTimeout am_timeout tout) with
  | HttpOutcome.success _ body => body
  | _ => ""

/-- `AlertManager._post`: returns `response.status` on success and the `""`
sentinel on `HTTPError`, `URLError` or `TimeoutError`; never raises. -/
def amPost (tout : Option Nat) (am_timeout : Nat) (outcome : Nat → HttpOutcome) : PostResult :=
  match outcome (amResolvedTimeout am_timeout tout) with
  | HttpOutcome.success s _ => PostResult.status s
  | _ => PostResult.sentinel

/-- `AlertManager._delete`: same failure handling as `_post`. -/
def amDelete (tout : Option Nat) (am_timeout : Nat) (outcome : Nat → HttpOutcome) : PostResult :=
  match outcome (amResolvedTimeout am_timeout tout) with
  | HttpOutcome.success s _ => PostResult.status s
  | _ => PostResult.sentinel

/-- `AlertManager.set_config(config)`: posts the yaml-serialized
configuration with the default per-call timeout. -/
def set_config (config : Yaml) (dump : Yaml → String) (am_timeout : Nat)
    (outcome : Nat → HttpOutcome) : PostResult :=
  let _ := dump config
  amPost Option.none am_timeout outcome

/-- `AlertManager.set_alert_rule_group(group)`: posts one yaml-serialized
rule group with the default per-call timeout. -/
def set_alert_rule_group (group : Yaml) (dump : Yaml → String) (am_timeout : Nat)
    (outcome : Nat → HttpOutcome) : PostResult :=
  let _ := dump group
  amPost Option.none am_timeout outcome

/-- `AlertManager.delete_alert_rule_group(groupname)` -/
def delete_alert_rule_group (groupname : String) (am_timeout : Nat)
    (outcome : Nat → HttpOutcome) : PostResult :=
  let _ := groupname
  amDelete Option.none am_timeout outcome

/-- `AlertManager.get_alert_rules()`: starts from `rules = \x7b\x7d`, and if
the `_get` body is truthy runs it through `yaml.safe_load` — which raises on
an unparseable body. -/
def get_alert_rules (parse : String → Option Yaml) (am_timeout : Nat)
    (outcome : Nat → HttpOutcome) : Except PyErr Yaml :=
  let response := amGet Option.none am_timeout outcome
  if response == "" then Except.ok (Yaml.map [])
  else
    match parse response with
    | Option.some y => Except.ok y
    | Option.none => Except.error PyErr.yamlError

/-- `AlertManager.get_alerts()`: starts from `alerts = \x7b\x7d`, and if the
`_get` body is truthy runs it through `json.loads` — which raises on an
unparseable body. -/
def get_alerts (jparse : String → Option Yaml) (am_timeout : Nat)
    (outcome : Nat → HttpOutcome) : Except PyErr Yaml :=
  let response := amGet Option.none am_timeout outcome
  if response == "" then Except.ok (Yaml.map [])
  else
    match jparse response with
    | Option.some y => Except.ok y
    | Option.none => Except.error PyErr.jsonError

/-- `True` when the embedded call ended in a raised exception. -/
def exceptRaises {ε α : Type} : Except ε α → Bool
  | Except.error _ => true
  | Except.ok _ => false

/-! ## `src/charm.py` -/

/-- Default notification template (`DEFAULT_ALERT_TEMPLATE`). -/
def DEFAULT_ALERT_TEMPLATE : String :=
  "|\n    \x7b\x7b define \"__alertmanager\" \x7d\x7dAlertManager\x7b\x7b end \x7d\x7d\n    \x7b\x7b define \"__alertmanagerURL\" \x7d\x7d\x7b\x7b .ExternalURL \x7d\x7d/#/alerts?receiver=\x7b\x7b .Receiver | urlquery \x7d\x7d\x7b\x7b end \x7d\x7d\n"

/-- `DEFAULT_ALERTMANAGER_CONFIG` -/
def DEFAULT_ALERTMANAGER_CONFIG : Yaml :=
  Yaml.map
    [("global", Yaml.map [("http_config", Yaml.map
        [("tls_config", Yaml.map [("insecure_skip_verify", Yaml.bool true)])])]),
     ("templates", Yaml.arr [Yaml.str "default_template"]),
     ("route", Yaml.map [("group_wait", Yaml.str "30s"),
                         ("group_interval", Yaml.str "5m"),
                         ("repeat_interval", Yaml.str "1h"),
                         ("receiver", Yaml.str "dummy")]),
     ("receivers", Yaml.arr [Yaml.map
        [("name", Yaml.str "dummy"),
         ("webhook_configs", Yaml.arr [Yaml.map
            [("url", Yaml.str "http://127.0.0.1:5001/")]])]])]

/-- One Pebble container call made by the charm. -/
inductive ContainerOp where
  | makeDir (path : String)
  | push (path : String) (content : String)
  | addLayer (name : String) (command : String)
  | start (name : String)
  | stop (name : String)
deriving DecidableEq

/-- The workload container as seen through Pebble: whether the Pebble API is
reachable, which paths exist, and the trace of calls made so far. -/
structure Container where
  canConnect : Bool
  existingPaths : List String
  trace : List ContainerOp
deriving DecidableEq

/-- Record one Pebble call on a connectable container. -/
def containerDo (c : Container) (op : ContainerOp) : Container :=
  { c with trace := c.trace ++ [op] }

/-- `container.make_dir(path, make_parents=True)`: records the call and the
freshly created path. -/
def containerMakeDir (c : Container) (path : String) : Container :=
  { c with existingPaths := c.existingPaths ++ [path],
           trace := c.trace ++ [ContainerOp.makeDir path] }

/-- `container.add_layer(name, layer, combine=True)`: raises
`ConnectionError` when the container is not connectable. -/
def containerAddLayer (c : Container) (name command : String) : Except PyErr Container :=
  if c.canConnect then Except.ok (containerDo c (ContainerOp.addLayer name command))
  else Except.error PyErr.connectionError

/-- `container.start(name)`: raises `ConnectionError` when the container is
not connectable. -/
def containerStart (c : Container) (name : String) : Except PyErr Container :=
  if c.canConnect then Except.ok (containerDo c (ContainerOp.start name))
  else Except.error PyErr.connectionError

/-- Juju charm configuration: `s3` and `tsdb_block_retention_period` are read
with `.get` (so possibly absent); the alertmanager options are read by key
(string-valued, defaulting to the empty string in the charm metadata). -/
structure CharmConfig where
  s3 : Option String
  tsdbRetention : Option String
  amTemplate : String
  amConfig : String
deriving DecidableEq

/-- A remote unit on the peer relation: its name and its relation data bag. -/
structure RemoteUnit where
  name : String
  data : List (String × String)
deriving DecidableEq

/-- `relation.data[unit].get(key)` -/
def relGet (data : List (String × String)) (k : String) : Option String :=
  match data.find? (fun kv => kv.1 == k) with
  | Option.some kv => Option.some kv.2
  | Option.none => Option.none

/-- The unit status the charm may set (`ops.model`). -/
inductive Status where
  | maintenance
  | active
  | waiting (msg : String)
  | blocked (msg : String)
deriving DecidableEq

/-- The charm's observable state: its container, its unit status, its charm
configuration, the planned unit count of the application, the local unit
name and fully qualified hostname, and the peer relation (absent, or the
list of remote units visible on it). -/
structure CharmState where
  container : Container
  status : Status
  config : CharmConfig
  plannedUnits : Nat
  unitName : String
  fqdn : String
  peerRelation : Option (List RemoteUnit)
deriving DecidableEq

/-- External collaborators of the charm: the yaml library (`safe_load` on
arbitrary strings, `dump`) and the per-call HTTP outcomes of the
alertmanager client. -/
structure Env where
  yamlParseRaw : String → Option Yaml
  yamlDump : Yaml → String
  setConfigOutcome : Nat → HttpOutcome
  rulePostOutcome : Yaml → Nat → HttpOutcome

/-- `yaml.safe_load`: behaviour fixed by the YAML format on the two literals
the charm itself supplies (`""` loads to `None`, `"\x7b\x7d"` to the empty
mapping); everything else is given by the environment's parser. -/
def yamlParse (env : Env) (s : String) : Option Yaml :=
  if s == "" then Option.some Yaml.null
  else if s == "\x7b\x7d" then Option.some (Yaml.map [])
  else env.yamlParseRaw s

def MIMIR_SERVICE_NAME : String := "mimir-writer"

def WAITING_MSG : String := "Waiting for Pebble ready"

/-- The Pebble service command of the initial layer. -/
def MIMIR_COMMAND : String :=
  "mimir -target=distributor,ingester,compactor,store-gateway,purger,ruler,alertmanager --config.file " ++ MIMIR_CONFIG_FILE

/-- `MimirWriterCharm.peers`: the local unit entry first, then — if a peer
relation exists — one entry per remote unit whose `peer_hostname` field is
present and non-empty (dictionary insertion/override semantics). -/
def dinsert (m : List (String × String)) (k v : String) : List (String × String) :=
  if m.any (fun p => p.1 == k) then m.map (fun p => if p.1 == k then (k, v) else p)
  else m ++ [(k, v)]

/-- One iteration of the `peers` loop body. -/
def peersStep (acc : List (String × String)) (u : RemoteUnit) : List (String × String) :=
  match relGet u.data "peer_hostname" with
  | Option.some h => if h == "" then acc else dinsert acc u.name h
  | Option.none => acc

/-- `MimirWriterCharm.peers` -/
def peersOf (st : CharmState) : List (String × String) :=
  let base := dinsert [] st.unitName st.fqdn
  match st.peerRelation with
  | Option.none => base
  | Option.some units => units.foldl peersStep base

/-- `MimirWriterCharm._mimir_config` without the final `yaml.dump`: parses
the `s3` option (default `"\x7b\x7d"`), and assembles the configuration
document; `Option.none` models a `yaml.safe_load` exception. -/
def mimirConfigDoc (env : Env) (st : CharmState) : Option Yaml :=
  match yamlParse env (st.config.s3.getD "\x7b\x7d") with
  | Option.none => Option.none
  | Option.some s3_config =>
    let retention_period := st.config.tsdbRetention.getD "24h"
    Option.some (Yaml.map
      [("multitenancy_enabled", Yaml.bool false),
       ("blocks_storage", Yaml.map (block_storage_config s3_config retention_period)),
       ("compactor", Yaml.map compactor_config),
       ("distributor", Yaml.map distributor_config),
       ("ingester", Yaml.map ingester_config),
       ("ruler", Yaml.map ruler_config),
       ("ruler_storage", Yaml.map ruler_storage_config),
       ("server", Yaml.map server_config),
       ("store_gateway", Yaml.map store_gateway_config),
       ("alertmanager_storage", Yaml.map alertmanager_storage_config),
       ("memberlist", memberlist_config st.unitName (peersOf st))])

/-- A top-level section of the generated configuration document. -/
def docSection (env : Env) (st : CharmState) (name : String) : Option Yaml :=
  match mimirConfigDoc env st with
  | Option.some (Yaml.map kvs) => lookupKey name kvs
  | _ => Option.none

/-- `MimirWriterCharm._create_mimir_dirs`: not-ready signal when the
container is not connectable; otherwise creates each missing directory of
`MIMIR_DIRS`. -/
def createMimirDirs (st : CharmState) : CharmState × Bool :=
  if !st.container.canConnect then
    ({ st with status := Status.waiting WAITING_MSG }, false)
  else
    let c := MIMIR_DIRS.foldl
      (fun c kv => if c.existingPaths.contains kv.2 then c else containerMakeDir c kv.2)
      st.container
    ({ st with container := c }, true)

/-- `MimirWriterCharm._set_mimir_config`: not-ready signal when the container
is not connectable; otherwise renders the configuration (re-raising any
`yaml.safe_load` exception) and pushes it to `MIMIR_CONFIG_FILE`. -/
def setMimirConfig (env : Env) (st : CharmState) :
    Except (PyErr × CharmState) (CharmState × Bool) :=
  if !st.container.canConnect then
    Except.ok ({ st with status := Status.waiting WAITING_MSG }, false)
  else
    match mimirConfigDoc env st with
    | Option.none => Except.error (PyErr.yamlError, st)
    | Option.some doc =>
      let c := containerDo st.container
        (ContainerOp.push MIMIR_CONFIG_FILE (env.yamlDump doc))
      Except.ok ({ st with container := c }, true)

/-- `MimirWriterCharm._set_alertmanager_config`: not-ready signal when the
container is not connectable; otherwise posts the (operator-supplied or
default) alerting configuration through `AlertManager.set_config`. -/
def setAlertmanagerConfig (env : Env) (st : CharmState) : CharmState × Bool :=
  if !st.container.canConnect then
    ({ st with status := Status.waiting WAITING_MSG }, false)
  else
    let cfg := if st.config.amTemplate == "" then DEFAULT_ALERT_TEMPLATE else st.config.amTemplate
    let tpl := if st.config.amConfig == "" then env.yamlDump DEFAULT_ALERTMANAGER_CONFIG
               else st.config.amConfig
    let aconfig := Yaml.map
      [("template_files", Yaml.map [("default_template", Yaml.str cfg)]),
       ("alertmanager_config", Yaml.str tpl)]
    let _ := set_config aconfig env.yamlDump 10 env.setConfigOutcome
    (st, true)

/-- `MimirWriterCharm._restart_mimir`: not-ready signal (with Waiting
status) when the container is not connectable; otherwise `stop` then
`start`, Active status, and `True`. -/
def restartMimir (st : CharmState) : CharmState × Bool :=
  if !st.container.canConnect then
    ({ st with status := Status.waiting WAITING_MSG }, false)
  else
    let c := containerDo (containerDo st.container (ContainerOp.stop MIMIR_SERVICE_NAME))
      (ContainerOp.start MIMIR_SERVICE_NAME)
    ({ st with container := c, status := Status.active }, true)

/-- `MimirWriterCharm._set_alert_rules(groups)`: pushes every group through
`AlertManager.set_alert_rule_group` and collects the groups whose push
result was falsy, in order. -/
def setAlertRulesCharm (env : Env) (groups : List Yaml) : List Yaml :=
  groups.foldl
    (fun failed_groups group =>
      if postTruthy (set_alert_rule_group group env.yamlDump 10 (env.rulePostOutcome group)) then
        failed_groups
      else failed_groups ++ [group])
    []

/-- `MimirWriterCharm._on_config_changed`: set Mimir config, set
alertmanager config, restart; Active on successful restart; finally Blocked
when more than one planned unit and no `s3` option. -/
def onConfigChanged (env : Env) (st : CharmState) : Except (PyErr × CharmState) CharmState :=
  match setMimirConfig env st with
  | Except.error e => Except.error e
  | Except.ok q =>
    let st2 := (setAlertmanagerConfig env q.1).1
    let p := restartMimir st2
    let st3 := if p.2 then { p.1 with status := Status.active } else p.1
    if st3.plannedUnits > 1 && (st3.config.s3.getD "" == "") then
      Except.ok { st3 with status := Status.blocked "Replication requires object storage" }
    else
      Except.ok st3

/-- `MimirWriterCharm._on_mimir_writer_pebble_ready`: create dirs, set
config, add the layer and start the workload (both raising on a
non-connectable container), push the alerting config, then Active — the
boolean not-ready signals of the helper steps are never consulted. -/
def onPebbleReady (env : Env) (st : CharmState) : Except (PyErr × CharmState) CharmState :=
  let p0 := createMimirDirs st
  match setMimirConfig env p0.1 with
  | Except.error e => Except.error e
  | Except.ok (st1, _) =>
    match containerAddLayer st1.container MIMIR_SERVICE_NAME MIMIR_COMMAND with
    | Except.error e => Except.error (e, st1)
    | Except.ok c1 =>
      match containerStart c1 MIMIR_SERVICE_NAME with
      | Except.error e => Except.error (e, { st1 with container := c1 })
      | Except.ok c2 =>
        let st2 := { st1 with container := c2 }
        let p3 := setAlertmanagerConfig env st2
        Except.ok { p3.1 with status := Status.active }

/-- `MimirWriterCharm._on_remote_write_relation_changed`: early Waiting
return when not connectable; otherwise pushes every relation's groups. -/
def onRemoteWriteRelationChanged (env : Env) (st : CharmState)
    (alertsForAllRelations : List (List Yaml)) : CharmState × List (List Yaml) :=
  if !st.container.canConnect then
    ({ st with status := Status.waiting WAITING_MSG }, [])
  else
    (st, alertsForAllRelations.map (fun groups => setAlertRulesCharm env groups))

/-! ## Concrete fixtures -/

/-- A container whose Pebble API is not reachable. -/
def deadContainer : Container :=
  { canConnect := false, existingPaths := [], trace := [] }

/-- A container whose Pebble API is reachable. -/
def liveContainer : Container :=
  { canConnect := true, existingPaths := [], trace := [] }

/-- The default charm configuration: no option set. -/
def cfgDefault : CharmConfig :=
  { s3 := Option.none, tsdbRetention := Option.none, amTemplate := "", amConfig := "" }

/-- A single-unit charm state over the given container. -/
def baseState (c : Container) : CharmState :=
  { container := c, status := Status.maintenance, config := cfgDefault,
    plannedUnits := 1, unitName := "mimir-writer/0", fqdn := "unit-0.local",
    peerRelation := Option.none }

/-- An environment whose raw yaml parser rejects everything and whose HTTP
endpoint is unreachable. -/
def env0 : Env :=
  { yamlParseRaw := fun _ => Option.none,
    yamlDump := fun _ => "",
    setConfigOutcome := fun _ => HttpOutcome.urlError,
    rulePostOutcome := fun _ _ => HttpOutcome.urlError }

/-! ## Claim theorems -/

/-- C1: the spec claims that when the container is not connectable the
pebble-ready handler ends with Waiting status and skips all remaining
steps.  In the code, the not-ready booleans returned by
`_create_mimir_dirs` and `_set_mimir_config` are ignored and the handler
proceeds to `container.add_layer` with no connectability check, so the
event raises a `ConnectionError` (and, absent that exception, would have
fallen through to `ActiveStatus`): the handler never completes with Waiting
by skipping the remaining steps.  This theorem evaluates the handler at the
failing input — a pebble-ready event over a non-connectable container. -/
theorem pebble_ready_dead_container_raises :
    onPebbleReady env0 (baseState deadContainer)
      = Except.error (PyErr.connectionError,
          { baseState deadContainer with status := Status.waiting WAITING_MSG })
  ∧ exceptRaises (onPebbleReady env0 (baseState deadContainer)) = true := by
  exact ⟨rfl, rfl⟩

/-- C9: `_restart_mimir` returns the not-ready signal `False` (having set
Waiting status) when the container is not connectable, and otherwise is
implemented as `stop` followed by `start` of the workload service, ending
Active and returning `True`. -/
theorem restart_is_stop_then_start (st : CharmState) :
    (st.container.canConnect = false →
       restartMimir st = ({ st with status := Status.waiting WAITING_MSG }, false))
  ∧ (st.container.canConnect = true →
       restartMimir st
         = ({ st with
              container := { st.container with
                trace := st.container.trace
                  ++ [ContainerOp.stop MIMIR_SERVICE_NAME, ContainerOp.start MIMIR_SERVICE_NAME] },
              status := Status.active }, true)) := by
  constructor
  · intro h
    simp [restartMimir, h]
  · intro h
    simp [restartMimir, h, containerDo]

/-- C9 witness: concrete evaluation of both branches. -/
theorem restart_is_stop_then_start_witness :
    restartMimir (baseState deadContainer)
      = ({ baseState deadContainer with status := Status.waiting WAITING_MSG }, false)
  ∧ (restartMimir (baseState liveContainer)).2 = true
  ∧ (restartMimir (baseState liveContainer)).1.container.trace
      = [ContainerOp.stop MIMIR_SERVICE_NAME, ContainerOp.start MIMIR_SERVICE_NAME] := by
  refine ⟨(restart_is_stop_then_start (baseState deadContainer)).1 rfl, ?_, ?_⟩
  · rw [(restart_is_stop_then_start (baseState liveContainer)).2 rfl]
  · rw [(restart_is_stop_then_start (baseState liveContainer)).2 rfl]
    rfl

/-- Helper: a normally returning `_set_mimir_config` changes neither the
planned unit count nor the charm configuration. -/
lemma setMimirConfig_ok_fields (env : Env) (st st1 : CharmState) (b : Bool)
    (h : setMimirConfig env st = Except.ok (st1, b)) :
    st1.plannedUnits = st.plannedUnits ∧ st1.config = st.config := by
  unfold setMimirConfig at h
  split at h
  · simp only [Except.ok.injEq, Prod.mk.injEq] at h
    obtain ⟨h1, -⟩ := h
    rw [← h1]
    exact ⟨rfl, rfl⟩
  · split at h
    · simp at h
    · simp only [Except.ok.injEq, Prod.mk.injEq] at h
      obtain ⟨h1, -⟩ := h
      rw [← h1]
      exact ⟨rfl, rfl⟩

/-- Helper: when the `s3` option is unset or the empty string, the
configuration document renders (the yaml parse cannot fail). -/
lemma mimirConfigDoc_s3_empty (env : Env) (st : CharmState)
    (h : st.config.s3 = Option.none ∨ st.config.s3 = Option.some "") :
    ∃ doc, mimirConfigDoc env st = Option.some doc := by
  rw [← Option.isSome_iff_exists]
  rcases h with h | h <;>
    · unfold mimirConfigDoc yamlParse
      rw [h]
      rfl

/-- Helper: with the `s3` option unset or empty, `_set_mimir_config` returns
normally. -/
lemma setMimirConfig_s3_empty_ok (env : Env) (st : CharmState)
    (h : st.config.s3 = Option.none ∨ st.config.s3 = Option.some "") :
    ∃ st1 b, setMimirConfig env st = Except.ok (st1, b) := by
  unfold setMimirConfig
  split
  · exact ⟨_, _, rfl⟩
  · obtain ⟨doc, hdoc⟩ := mimirConfigDoc_s3_empty env st h
    rw [hdoc]
    exact ⟨_, _, rfl⟩

/-- Helper: `_set_alertmanager_config` only ever touches the unit status. -/
lemma setAlertmanagerConfig_fields (env : Env) (st : CharmState) :
    (setAlertmanagerConfig env st).1.plannedUnits = st.plannedUnits
  ∧ (setAlertmanagerConfig env st).1.config = st.config := by
  unfold setAlertmanagerConfig
  split <;> exact ⟨rfl, rfl⟩

/-- Helper: `_restart_mimir` changes neither the planned unit count nor the
charm configuration. -/
lemma restartMimir_fields (st : CharmState) :
    (restartMimir st).1.plannedUnits = st.plannedUnits
  ∧ (restartMimir st).1.config = st.config := by
  unfold restartMimir
  split <;> exact ⟨rfl, rfl⟩

/-- C4: whenever the planned unit count exceeds one and the `s3` option is
unset or empty, `_on_config_changed` completes normally and its final
status is Blocked with the storage diagnostic — the check runs last and so
overrides the Active status a successful restart set. -/
theorem config_changed_blocked_without_object_storage (env : Env) (st : CharmState)
    (h1 : st.plannedUnits > 1) (h2 : st.config.s3.getD "" = "") :
    ∃ st', onConfigChanged env st = Except.ok st'
      ∧ st'.status = Status.blocked "Replication requires object storage" := by
  have hs3 : st.config.s3 = Option.none ∨ st.config.s3 = Option.some "" := by
    cases h : st.config.s3 with
    | none => exact Or.inl rfl
    | some s => right; rw [h] at h2; simp [Option.getD] at h2; rw [h2]
  obtain ⟨st1, b1, hmc⟩ := setMimirConfig_s3_empty_ok env st hs3
  obtain ⟨hpu1, hcfg1⟩ := setMimirConfig_ok_fields env st st1 b1 hmc
  have key : onConfigChanged env st =
      (let st2 := (setAlertmanagerConfig env st1).1
       let p := restartMimir st2
       let st3 := if p.2 then { p.1 with status := Status.active } else p.1
       if st3.plannedUnits > 1 && (st3.config.s3.getD "" == "") then
         Except.ok { st3 with status := Status.blocked "Replication requires object storage" }
       else Except.ok st3) := by
    unfold onConfigChanged
    rw [hmc]
  obtain ⟨hpu2, hcfg2⟩ := setAlertmanagerConfig_fields env st1
  obtain ⟨hpu3, hcfg3⟩ := restartMimir_fields (setAlertmanagerConfig env st1).1
  rw [key]
  simp only []
  have hpu : ∀ c : Bool,
      ((if c then { (restartMimir (setAlertmanagerConfig env st1).1).1 with
                      status := Status.active }
        else (restartMimir (setAlertmanagerConfig env st1).1).1).plannedUnits)
        = st.plannedUnits := by
    intro c
    cases c <;> simp [hpu3, hpu2, hpu1]
  have hcfg : ∀ c : Bool,
      ((if c then { (restartMimir (setAlertmanagerConfig env st1).1).1 with
                      status := Status.active }
        else (restartMimir (setAlertmanagerConfig env st1).1).1).config)
        = st.config := by
    intro c
    cases c <;> simp [hcfg3, hcfg2, hcfg1]
  rw [hpu, hcfg, h2]
  simp [h1]

/-- The per-unit selection the spec describes for `peers`: a remote unit
contributes its `(name, peer_hostname)` entry exactly when its
`peer_hostname` field is present and non-empty. -/
def peersPick (u : RemoteUnit) : Option (String × String) :=
  match relGet u.data "peer_hostname" with
  | Option.some h => if h == "" then Option.none else Option.some (u.name, h)
  | Option.none => Option.none

/-- C5 spec-side reading of the peers mapping: the local unit's entry united
with one entry per remote unit publishing a non-empty `peer_hostname`. -/
def resolve_peers_spec (st : CharmState) : List (String × String) :=
  (st.unitName, st.fqdn) ::
    (match st.peerRelation with
     | Option.none => []
     | Option.some units => units.filterMap peersPick)

/-- Helper: inserting a fresh key appends it. -/
lemma dinsert_fresh (m : List (String × String)) (k v : String)
    (h : m.any (fun p => p.1 == k) = false) : dinsert m k v = m ++ [(k, v)] := by
  simp [dinsert, h]

/-- Helper: the `peers` loop, run from an accumulator none of whose keys is a
remote unit name, appends exactly the publishing remote units in order. -/
lemma peers_foldl (units : List RemoteUnit) (acc : List (String × String))
    (hdisj : ∀ u ∈ units, acc.any (fun p => p.1 == u.name) = false)
    (hnd : (units.map RemoteUnit.name).Nodup) :
    units.foldl peersStep acc = acc ++ units.filterMap peersPick := by
  induction units generalizing acc with
  | nil => simp
  | cons u us ih =>
    have hu := hdisj u (List.mem_cons_self u us)
    have hnd' : (us.map RemoteUnit.name).Nodup := by
      rw [List.map_cons, List.nodup_cons] at hnd
      exact hnd.2
    have hne : ∀ v ∈ us, v.name ≠ u.name := by
      intro v hv he
      rw [List.map_cons, List.nodup_cons] at hnd
      exact hnd.1 (he ▸ List.mem_map_of_mem RemoteUnit.name hv)
    simp only [List.foldl_cons, List.filterMap_cons]
    cases hg : relGet u.data "peer_hostname" with
    | none =>
      have hstep : peersStep acc u = acc := by simp [peersStep, hg]
      have hpick : peersPick u = Option.none := by simp [peersPick, hg]
      rw [hstep, hpick]
      exact ih acc (fun v hv => hdisj v (List.mem_cons_of_mem u hv)) hnd'
    | some h =>
      cases hh : (h == "") with
      | true =>
        have hstep : peersStep acc u = acc := by simp [peersStep, hg, hh]
        have hpick : peersPick u = Option.none := by simp [peersPick, hg, hh]
        rw [hstep, hpick]
        exact ih acc (fun v hv => hdisj v (List.mem_cons_of_mem u hv)) hnd'
      | false =>
        have hstep : peersStep acc u = acc ++ [(u.name, h)] := by
          simp only [peersStep, hg, hh]
          exact dinsert_fresh acc u.name h hu
        have hpick : peersPick u = Option.some (u.name, h) := by simp [peersPick, hg, hh]
        rw [hstep, hpick]
        have hdisj' : ∀ v ∈ us, (acc ++ [(u.name, h)]).any (fun p => p.1 == v.name) = false := by
          intro v hv
          rw [List.any_append]
          have h1 := hdisj v (List.mem_cons_of_mem u hv)
          have h2 : (u.name == v.name) = false := by
            rw [beq_eq_false_iff_ne]
            exact fun he => hne v hv he.symm
          simp [h1, h2]
        rw [ih (acc ++ [(u.name, h)]) hdisj' hnd']
        simp

/-- C5: under the juju guarantee that remote unit names are distinct from
each other and from the local unit name, the `peers` mapping is exactly the
local unit's entry united with one entry per remote unit publishing a
non-empty `peer_hostname` (absent or empty fields skip the unit), and with
no peer relation or no remote peers it is exactly the local entry. -/
theorem peers_mapping (st : CharmState)
    (hlocal : ∀ u ∈ st.peerRelation.getD [], u.name ≠ st.unitName)
    (hnd : ((st.peerRelation.getD []).map RemoteUnit.name).Nodup) :
    peersOf st = resolve_peers_spec st
  ∧ (st.peerRelation = Option.none → peersOf st = [(st.unitName, st.fqdn)])
  ∧ (st.peerRelation = Option.some [] → peersOf st = [(st.unitName, st.fqdn)]) := by
  have hbase : dinsert [] st.unitName st.fqdn = [(st.unitName, st.fqdn)] := by
    simp [dinsert]
  refine ⟨?_, ?_, ?_⟩
  · cases hpr : st.peerRelation with
    | none => simp [peersOf, resolve_peers_spec, hpr, hbase]
    | some units =>
      rw [hpr] at hlocal hnd
      simp only [Option.getD_some] at hlocal hnd
      have hdisj : ∀ u ∈ units,
          ([(st.unitName, st.fqdn)] : List (String × String)).any
            (fun p => p.1 == u.name) = false := by
        intro u hu
        have : (st.unitName == u.name) = false := by
          rw [beq_eq_false_iff_ne]
          exact fun he => (hlocal u hu) he.symm
        simp [this]
      simp only [peersOf, hpr, hbase]
      rw [peers_foldl units [(st.unitName, st.fqdn)] hdisj hnd]
      simp [resolve_peers_spec, hpr]
  · intro h
    simp [peersOf, h, hbase]
  · intro h
    simp [peersOf, h, hbase]

/-- The C5 scenario state: two remote units, one publishing
`peer_hostname=h2`, the other publishing nothing. -/
def stScenario : CharmState :=
  { baseState liveContainer with
    peerRelation := Option.some
      [{ name := "mimir-writer/1", data := [("peer_hostname", "h2")] },
       { name := "mimir-writer/2", data := [] }] }

/-- C5 witness: the scenario yields exactly the local entry plus the one
publishing remote. -/
theorem peers_mapping_witness :
    peersOf stScenario = resolve_peers_spec stScenario
  ∧ peersOf stScenario = [("mimir-writer/0", "unit-0.local"), ("mimir-writer/1", "h2")] := by
  refine ⟨(peers_mapping stScenario (by decide) (by decide)).1, rfl⟩

/-- Helper: collecting the elements on which `p` fails, by append-fold. -/
lemma foldl_collect_failed (p : Yaml → Bool) (gs : List Yaml) (acc : List Yaml) :
    gs.foldl (fun a g => if p g then a else a ++ [g]) acc
      = acc ++ gs.filter (fun g => !(p g)) := by
  induction gs generalizing acc with
  | nil => simp
  | cons g gs ih =>
    cases hp : p g <;> simp [List.foldl_cons, List.filter_cons, hp, ih]

/-- C8 scenario groups. -/
def gA : Yaml := Yaml.str "groupA"

def gB : Yaml := Yaml.str "groupB"

/-- C8 scenario environment: pushing `groupA` succeeds with a 200, pushing
anything else hits an unreachable endpoint. -/
def envScenario : Env :=
  { env0 with rulePostOutcome := fun g _ =>
      match g with
      | Yaml.str "groupA" => HttpOutcome.success 200 ""
      | _ => HttpOutcome.urlError }

/-- C8: `_set_alert_rules` attempts every group in order, returns exactly
the sublist of groups whose push returned the falsy failure sentinel (in
input order, as a total function — no exception escapes), and in the
one-success/one-failure scenario the returned failed-group list has
length 1. -/
theorem set_alert_rules_collects_failures (env : Env) (groups : List Yaml) :
    setAlertRulesCharm env groups
      = groups.filter
          (fun g => !(postTruthy (set_alert_rule_group g env.yamlDump 10 (env.rulePostOutcome g))))
  ∧ setAlertRulesCharm envScenario [gA, gB] = [gB]
  ∧ (setAlertRulesCharm envScenario [gA, gB]).length = 1 := by
  refine ⟨?_, rfl, rfl⟩
  unfold setAlertRulesCharm
  exact (foldl_collect_failed
    (fun g => postTruthy (set_alert_rule_group g env.yamlDump 10 (env.rulePostOutcome g)))
    groups []).trans (by simp)

/-- C4 witness: three planned units, no `s3` option, connectable container:
the restart succeeds and yet the final status is Blocked. -/
theorem config_changed_blocked_without_object_storage_witness :
    (baseState liveContainer).plannedUnits < 3
  ∧ ∃ st', onConfigChanged env0 { baseState liveContainer with plannedUnits := 3 }
        = Except.ok st'
      ∧ st'.status = Status.blocked "Replication requires object storage" := by
  refine ⟨by decide, ?_⟩
  exact config_changed_blocked_without_object_storage env0
    { baseState liveContainer with plannedUnits := 3 } (by decide) (by decide)

/-- C7: in the block-storage section exactly one of the `s3` and
`filesystem` keys is present: `s3` (embedding the input verbatim, with
backend `"s3"`) exactly when the object-store input is truthy, and
otherwise `filesystem` with the fixed local path (backend `"filesystem"`)
— never both, never neither. -/
theorem block_storage_mutually_exclusive_backend (s3_config : Yaml) (retention_period : String) :
    lookupKey "s3" (block_storage_config s3_config retention_period)
      = (if yamlTruthy s3_config then Option.some s3_config else Option.none)
  ∧ lookupKey "filesystem" (block_storage_config s3_config retention_period)
      = (if yamlTruthy s3_config then Option.none
         else Option.some (Yaml.map [("dir", Yaml.str "/tmp/mimir/data/tsdb")]))
  ∧ lookupKey "backend" (block_storage_config s3_config retention_period)
      = Option.some (Yaml.str (if yamlTruthy s3_config then "s3" else "filesystem")) := by
  cases h : yamlTruthy s3_config <;>
    simp [block_storage_config, lookupKey, mimirDir, MIMIR_DIRS, h]

/-- An environment whose raw yaml parser parses the literal `"s3: yes"` to
a non-empty mapping. -/
def envS3 : Env :=
  { env0 with yamlParseRaw := fun s =>
      if s == "s3: yes" then Option.some (Yaml.map [("endpoint", Yaml.str "s3.example.com")])
      else Option.none }

/-- A connectable charm state whose `s3` option is set to `"s3: yes"`. -/
def stS3 : CharmState :=
  { baseState liveContainer with config := { cfgDefault with s3 := Option.some "s3: yes" } }

/-- C2 counterexample: with an object-store option that parses to a
non-empty structure, the ruler-storage section of the generated
configuration document still selects the `filesystem` backend, not the
object-store (`s3`) backend — so not every storage section selects the
object-store backend. -/
theorem storage_sections_not_all_object_store :
    yamlTruthy (Yaml.map [("endpoint", Yaml.str "s3.example.com")]) = true
  ∧ yamlParse envS3 ((stS3.config.s3).getD "\x7b\x7d")
      = Option.some (Yaml.map [("endpoint", Yaml.str "s3.example.com")])
  ∧ docSection envS3 stS3 "ruler_storage" = Option.some (Yaml.map ruler_storage_config)
  ∧ lookupKey "backend" ruler_storage_config = Option.some (Yaml.str "filesystem")
  ∧ ("filesystem" == "s3") = false := by
  exact ⟨rfl, rfl, rfl, rfl, rfl⟩

/-- C2 amended: when the object-store option parses to a truthy structure,
only the block-storage section selects the `s3` backend and embeds the
parsed structure verbatim; the ruler-storage and alertmanager-storage
sections always select the `filesystem` backend. -/
theorem block_storage_embeds_object_store (env : Env) (st : CharmState) (v : Yaml)
    (hparse : yamlParse env (st.config.s3.getD "\x7b\x7d") = Option.some v)
    (hv : yamlTruthy v = true) :
    docSection env st "blocks_storage"
      = Option.some (Yaml.map (block_storage_config v (st.config.tsdbRetention.getD "24h")))
  ∧ lookupKey "backend" (block_storage_config v (st.config.tsdbRetention.getD "24h"))
      = Option.some (Yaml.str "s3")
  ∧ lookupKey "s3" (block_storage_config v (st.config.tsdbRetention.getD "24h"))
      = Option.some v
  ∧ docSection env st "ruler_storage" = Option.some (Yaml.map ruler_storage_config)
  ∧ docSection env st "alertmanager_storage" = Option.some (Yaml.map alertmanager_storage_config)
  ∧ lookupKey "backend" ruler_storage_config = Option.some (Yaml.str "filesystem")
  ∧ lookupKey "backend" alertmanager_storage_config = Option.some (Yaml.str "filesystem") := by
  have hdoc : ∀ name, docSection env st name =
      lookupKey name
        [("multitenancy_enabled", Yaml.bool false),
         ("blocks_storage", Yaml.map (block_storage_config v (st.config.tsdbRetention.getD "24h"))),
         ("compactor", Yaml.map compactor_config),
         ("distributor", Yaml.map distributor_config),
         ("ingester", Yaml.map ingester_config),
         ("ruler", Yaml.map ruler_config),
         ("ruler_storage", Yaml.map ruler_storage_config),
         ("server", Yaml.map server_config),
         ("store_gateway", Yaml.map store_gateway_config),
         ("alertmanager_storage", Yaml.map alertmanager_storage_config),
         ("memberlist", memberlist_config st.unitName (peersOf st))] := by
    intro name
    unfold docSection mimirConfigDoc
    rw [hparse]
  refine ⟨?_, ?_, ?_, ?_, ?_, rfl, rfl⟩
  · rw [hdoc]
    simp [lookupKey]
  · simp [block_storage_config, lookupKey, hv]
  · simp [block_storage_config, lookupKey, hv]
  · rw [hdoc]
    simp [lookupKey]
  · rw [hdoc]
    simp [lookupKey]

/-- C2 witness: concrete evaluation at the `envS3`/`stS3` fixture. -/
theorem block_storage_embeds_object_store_witness :
    docSection envS3 stS3 "blocks_storage"
      = Option.some (Yaml.map (block_storage_config
          (Yaml.map [("endpoint", Yaml.str "s3.example.com")]) "24h"))
  ∧ lookupKey "s3" (block_storage_config
        (Yaml.map [("endpoint", Yaml.str "s3.example.com")]) "24h")
      = Option.some (Yaml.map [("endpoint", Yaml.str "s3.example.com")])
  ∧ docSection envS3 stS3 "ruler_storage" = Option.some (Yaml.map ruler_storage_config) := by
  have h := block_storage_embeds_object_store envS3 stS3
    (Yaml.map [("endpoint", Yaml.str "s3.example.com")]) rfl rfl
  exact ⟨h.1, h.2.2.1, h.2.2.2.1⟩

/-- C6 counterexample: for default settings (no object-store option,
retention `"24h"`) the block-storage section of the generated document also
contains a `bucket_store` key, which is none of the three keys
(`backend`, `filesystem`, `tsdb`) the claim permits — so the section does
not equal the claimed three-key mapping. -/
theorem block_storage_default_has_bucket_store :
    docSection env0 (baseState liveContainer) "blocks_storage"
      = Option.some (Yaml.map (block_storage_config (Yaml.map []) "24h"))
  ∧ lookupKey "bucket_store" (block_storage_config (Yaml.map []) "24h")
      = Option.some (Yaml.map [("sync_dir", Yaml.str "/tmp/mimir/tsdb-sync")])
  ∧ (["backend", "filesystem", "tsdb"].contains "bucket_store") = false := by
  exact ⟨rfl, rfl, rfl⟩

/-- C6 amended: for settings with no object-store option and retention
period `"24h"`, the block-storage section equals exactly the mapping with
the four keys `bucket_store`, `tsdb`, `backend` and `filesystem`, with the
fixed paths and the given retention period. -/
theorem block_storage_default_section (env : Env) (st : CharmState)
    (hs3 : st.config.s3 = Option.none)
    (hret : st.config.tsdbRetention.getD "24h" = "24h") :
    docSection env st "blocks_storage"
      = Option.some (Yaml.map
          [("bucket_store", Yaml.map [("sync_dir", Yaml.str "/tmp/mimir/tsdb-sync")]),
           ("tsdb", Yaml.map [("dir", Yaml.str "/tmp/mimir/tsdb"),
                              ("retention_period", Yaml.str "24h")]),
           ("backend", Yaml.str "filesystem"),
           ("filesystem", Yaml.map [("dir", Yaml.str "/tmp/mimir/data/tsdb")])]) := by
  unfold docSection mimirConfigDoc yamlParse
  rw [hs3]
  simp only [Option.getD_none]
  rw [hret]
  rfl

/-- C6 witness: concrete evaluation at the default single-unit state. -/
theorem block_storage_default_section_witness :
    docSection env0 (baseState liveContainer) "blocks_storage"
      = Option.some (Yaml.map
          [("bucket_store", Yaml.map [("sync_dir", Yaml.str "/tmp/mimir/tsdb-sync")]),
           ("tsdb", Yaml.map [("dir", Yaml.str "/tmp/mimir/tsdb"),
                              ("retention_period", Yaml.str "24h")]),
           ("backend", Yaml.str "filesystem"),
           ("filesystem", Yaml.map [("dir", Yaml.str "/tmp/mimir/data/tsdb")])]) :=
  block_storage_default_section env0 (baseState liveContainer) rfl rfl

/-- C3 counterexample: a 2xx response with a non-empty body the yaml parser
rejects makes `get_alert_rules` raise the parser's exception to the caller
instead of returning the empty result — unlike a request failure. -/
theorem rule_client_unparseable_raises :
    get_alert_rules (fun _ => Option.none) 10 (fun _ => HttpOutcome.success 200 "][")
      = Except.error PyErr.yamlError
  ∧ exceptRaises (get_alert_rules (fun _ => Option.none) 10
      (fun _ => HttpOutcome.success 200 "][")) = true
  ∧ exceptRaises (Except.ok (Yaml.map []) : Except PyErr Yaml) = false := by
  exact ⟨rfl, rfl, rfl⟩

/-- C3 amended: every transport failure (unreachable endpoint, timeout,
non-2xx response) makes every rule-client operation return its empty or
falsy sentinel without raising, and `set_config`, `set_alert_rule_group`
and `delete_alert_rule_group` never raise at all; but in `get_alert_rules`
(and likewise `get_alerts`) a non-empty 2xx body the parser rejects raises
the parse error to the caller rather than being treated as an empty
result. -/
theorem rule_client_failure_policy (t : Nat) (parse jparse : String → Option Yaml)
    (dump : Yaml → String) (doc : Yaml) (name : String) (s : Nat) (b : String)
    (hb : (b == "") = false) (hp : parse b = Option.none)
    (hj : jparse b = Option.none) :
    get_alert_rules parse t (fun _ => HttpOutcome.urlError) = Except.ok (Yaml.map [])
  ∧ get_alert_rules parse t (fun _ => HttpOutcome.timeoutError) = Except.ok (Yaml.map [])
  ∧ get_alert_rules parse t (fun _ => HttpOutcome.httpError s) = Except.ok (Yaml.map [])
  ∧ get_alerts jparse t (fun _ => HttpOutcome.urlError) = Except.ok (Yaml.map [])
  ∧ get_alerts jparse t (fun _ => HttpOutcome.timeoutError) = Except.ok (Yaml.map [])
  ∧ get_alerts jparse t (fun _ => HttpOutcome.httpError s) = Except.ok (Yaml.map [])
  ∧ set_config doc dump t (fun _ => HttpOutcome.urlError) = PostResult.sentinel
  ∧ set_config doc dump t (fun _ => HttpOutcome.timeoutError) = PostResult.sentinel
  ∧ set_config doc dump t (fun _ => HttpOutcome.httpError s) = PostResult.sentinel
  ∧ set_alert_rule_group doc dump t (fun _ => HttpOutcome.urlError) = PostResult.sentinel
  ∧ set_alert_rule_group doc dump t (fun _ => HttpOutcome.timeoutError) = PostResult.sentinel
  ∧ set_alert_rule_group doc dump t (fun _ => HttpOutcome.httpError s) = PostResult.sentinel
  ∧ delete_alert_rule_group name t (fun _ => HttpOutcome.urlError) = PostResult.sentinel
  ∧ delete_alert_rule_group name t (fun _ => HttpOutcome.timeoutError) = PostResult.sentinel
  ∧ delete_alert_rule_group name t (fun _ => HttpOutcome.httpError s) = PostResult.sentinel
  ∧ get_alert_rules parse t (fun _ => HttpOutcome.success s b) = Except.error PyErr.yamlError
  ∧ get_alerts jparse t (fun _ => HttpOutcome.success s b) = Except.error PyErr.jsonError := by
  refine ⟨rfl, rfl, rfl, rfl, rfl, rfl, rfl, rfl, rfl, rfl, rfl, rfl, rfl, rfl, rfl, ?_, ?_⟩
  · simp [get_alert_rules, amGet, hb, hp]
  · simp [get_alerts, amGet, hb, hj]

/-- C3 witness: concrete evaluation at a rejecting parser and a non-empty
body. -/
theorem rule_client_failure_policy_witness :
    get_alert_rules (fun _ => Option.none) 10 (fun _ => HttpOutcome.urlError)
      = Except.ok (Yaml.map [])
  ∧ set_alert_rule_group Yaml.null (fun _ => "") 10 (fun _ => HttpOutcome.httpError 500)
      = PostResult.sentinel
  ∧ get_alert_rules (fun _ => Option.none) 10 (fun _ => HttpOutcome.success 200 "x")
      = Except.error PyErr.yamlError := by
  have h := rule_client_failure_policy 10 (fun _ => Option.none) (fun _ => Option.none)
    (fun _ => "") Yaml.null "g" 500 "x" rfl rfl rfl
  refine ⟨h.1, ?_, ?_⟩
  · exact h.2.2.2.2.2.2.2.2.2.2.2.1
  · have h2 := rule_client_failure_policy 10 (fun _ => Option.none) (fun _ => Option.none)
      (fun _ => "") Yaml.null "g" 200 "x" rfl rfl rfl
    exact h2.2.2.2.2.2.2.2.2.2.2.2.2.2.2.2.1

/-- C10: a falsy explicit per-call timeout (`None` or `0`) resolves to the
instance default timeout (10 for the client the charm constructs), so with
that default a zero effective timeout is never passed to `urlopen`; `_get`,
`_post` and `_delete` behave under an explicit `0` exactly as under the
default. -/
theorem per_call_timeout_falsy_uses_default (t : Option Nat) (d : Nat)
    (f : Nat → HttpOutcome) :
    amResolvedTimeout 10 Option.none = 10
  ∧ amResolvedTimeout 10 (Option.some 0) = 10
  ∧ amResolvedTimeout d Option.none = d
  ∧ amResolvedTimeout d (Option.some 0) = d
  ∧ 0 < amResolvedTimeout 10 t
  ∧ amGet (Option.some 0) 10 f = amGet Option.none 10 f
  ∧ amPost (Option.some 0) 10 f = amPost Option.none 10 f
  ∧ amDelete (Option.some 0) 10 f = amDelete Option.none 10 f := by
  refine ⟨rfl, rfl, rfl, rfl, ?_, rfl, rfl, rfl⟩
  cases t with
  | none => decide
  | some n =>
    cases n with
    | zero => decide
    | succ m => simp [amResolvedTimeout]
